import Mathlib

/-!
A shallow embedding of the `reverse_proxy` repository's pure logic:
route matching (`src/proxy.rs`, `RouteMatcher`), upstream selection and
target-URI construction (`ProxyServer::proxy_request`), the shared
metrics/log store (`src/state.rs`, `SharedState`), the request handler
(`ProxyServer::handle_request`) and the control surface
(`src/control.rs`, `ControlServer::handle_request`).

Rust strings are modelled as `List Char`; `u64`/`u32` counters as `Nat`
(every arithmetic operation the code performs on them is an increment or
a guarded decrement, so no wrap-around is reachable from the modelled
operations); fallible operations as `Option`.  Network and clock effects
are supplied by an explicit environment (`Env`).
-/

namespace RProxy

/-- Rust `&str` / `String`, modelled as a list of characters. -/
abbrev Str := List Char

/-- `config.rs`: `struct Upstream { url, weight, fail_threshold, cooldown_secs }`. -/
structure Upstream where
  url : Str
  weight : Nat
  fail_threshold : Nat
  cooldown_secs : Nat
deriving DecidableEq

/-- `config.rs`: `struct Route`.  The source field names `path_prefix`,
`strip_prefix` and `rewrite_prefix` are rendered `path_pre`, `strip_pre`,
`rewrite_pre`. -/
structure Route where
  name : Str
  hosts : List Str
  path_pre : Str
  strip_pre : Bool
  rewrite_pre : Option Str
  upstreams : List Upstream
deriving DecidableEq

/-- `proxy.rs` `RouteMatcher::matches_host`, inner loop body for one pattern:
if the pattern starts with `*.`, take `suffix = &pattern[2..]` and match when
`host.ends_with(suffix) || (suffix.len() > 1 && host == &suffix[1..])`;
otherwise match on exact equality. -/
def matchesPattern (pattern host : Str) : Bool :=
  if ['*', '.'] <+: pattern then
    decide (pattern.drop 2 <:+ host) ||
      (decide (1 < (pattern.drop 2).length) && decide (host = (pattern.drop 2).drop 1))
  else
    decide (pattern = host)

/-- `proxy.rs` `RouteMatcher::matches_host`: true iff some pattern in the
list matches the host. -/
def matches_host (patterns : List Str) (host : Str) : Bool :=
  patterns.any fun p => matchesPattern p host

/-- The per-route condition of `RouteMatcher::find_route`:
`self.matches_host(&route.hosts, host) && path.starts_with(&route.path_prefix)`. -/
def routeMatches (r : Route) (host path : Str) : Bool :=
  matches_host r.hosts host && decide (r.path_pre <+: path)

/-- `proxy.rs` `RouteMatcher::find_route`: scan the routes in order and
return the first one whose hosts match and whose path prefix is a literal
prefix of the path. -/
def find_route : List Route → Str → Str → Option Route
  | [], _, _ => none
  | r :: rs, host, path =>
      if routeMatches r host path then some r else find_route rs host path

/-- `proxy.rs` `ProxyServer::select_upstream`:
`upstreams.first().map(|u| u.url.clone())`. -/
def select_upstream (upstreams : List Upstream) : Option Str :=
  upstreams.head?.map fun u => u.url

/-- Rust `str::strip_prefix`: `some` of the remainder when `p` is a prefix
of `s`, otherwise `none`. -/
def stripPre (p s : Str) : Option Str :=
  if p <+: s then some (s.drop p.length) else none

/-- `proxy.rs` `ProxyServer::proxy_request`, path-rewrite step: when the
route's strip flag is set, strip the route's path prefix (falling back to
the unchanged path) and prepend the rewrite prefix when one is configured;
otherwise keep the path. -/
def rewrittenPath (route : Route) (path : Str) : Str :=
  if route.strip_pre then
    match route.rewrite_pre with
    | some rw => rw ++ (stripPre route.path_pre path).getD path
    | none => (stripPre route.path_pre path).getD path
  else
    path

/-- `proxy.rs` `proxy_request`: the query component, `"?" + q` when the
request had a query string, empty otherwise. -/
def queryPart : Option Str → Str
  | some q => '?' :: q
  | none => []

/-- `proxy.rs` `proxy_request`: `format!("{}{}{}", upstream_url, new_path, query)`. -/
def targetUri (upstream_url : Str) (route : Route) (path : Str) (query : Option Str) : Str :=
  upstream_url ++ rewrittenPath route path ++ queryPart query

/-- `state.rs`: `struct RequestLog`.  The `DateTime<Utc>` timestamp is
modelled as a `Nat` (milliseconds since epoch); the handler only ever
stores it, never inspects it. -/
structure RequestLog where
  timestamp : Nat
  method : Str
  path : Str
  host : Str
  status : Nat
  duration_ms : Nat
  upstream : Str
deriving DecidableEq

/-- `state.rs`: `struct UpstreamStatus { url, healthy, failures }`. -/
structure UpstreamStatus where
  url : Str
  healthy : Bool
  failures : Nat
deriving DecidableEq

/-- `state.rs`: `struct ProxyMetrics`. -/
structure ProxyMetrics where
  total_requests : Nat
  active_requests : Nat
  total_errors : Nat
  upstreams_status : List UpstreamStatus
deriving DecidableEq

/-- `state.rs`: `struct SharedState { request_logs, metrics }` (the
`RwLock`s disappear in this sequential model). -/
structure SharedState where
  request_logs : List RequestLog
  metrics : ProxyMetrics
deriving DecidableEq

/-- `state.rs` `SharedState::new` / `Default`: empty log store, all
counters zero. -/
def SharedState.new : SharedState :=
  ⟨[], ⟨0, 0, 0, []⟩⟩

/-- `state.rs` `SharedState::add_request_log`: push the entry, then if the
store now holds more than 1000 records, `remove(0)` (drop the oldest). -/
def add_request_log (st : SharedState) (log : RequestLog) : SharedState :=
  { st with request_logs :=
      if 1000 < (st.request_logs ++ [log]).length then (st.request_logs ++ [log]).drop 1
      else st.request_logs ++ [log] }

/-- `state.rs` `SharedState::increment_total_requests`. -/
def increment_total_requests (st : SharedState) : SharedState :=
  { st with metrics := { st.metrics with total_requests := st.metrics.total_requests + 1 } }

/-- `state.rs` `SharedState::increment_active_requests`. -/
def increment_active_requests (st : SharedState) : SharedState :=
  { st with metrics := { st.metrics with active_requests := st.metrics.active_requests + 1 } }

/-- `state.rs` `SharedState::decrement_active_requests`: decrement only
when the counter is positive (saturating at zero). -/
def decrement_active_requests (st : SharedState) : SharedState :=
  { st with metrics := { st.metrics with active_requests :=
      if 0 < st.metrics.active_requests then st.metrics.active_requests - 1
      else st.metrics.active_requests } }

/-- `state.rs` `SharedState::increment_errors`. -/
def increment_errors (st : SharedState) : SharedState :=
  { st with metrics := { st.metrics with total_errors := st.metrics.total_errors + 1 } }

/-- The effects `handle_request` cannot compute itself: whether the
computed target URI string parses as a `hyper::Uri`, the outcome of the
outbound request (`some status`, or `none` for a transport error), the
clock reading used for the log timestamp and the measured duration. -/
structure Env where
  parseOk : Str → Bool
  fetch : Option Nat
  now : Nat
  elapsed_ms : Nat

/-- Models `http::HeaderValue::to_str` (used by `handle_request` via
`h.to_str().ok()`): succeeds iff every byte is visible ASCII (32..=126)
or horizontal tab, yielding the bytes as characters. -/
def headerValueToStr (bytes : List Nat) : Option Str :=
  if bytes.all fun b => decide ((32 ≤ b ∧ b ≤ 126) ∨ b = 9) then
    some (bytes.map Char.ofNat)
  else
    none

/-- `proxy.rs` `handle_request`, host extraction:
`req.headers().get("host").and_then(|h| h.to_str().ok()).unwrap_or("unknown")`. -/
def extractHost (header : Option (List Nat)) : Str :=
  match header with
  | none => "unknown".data
  | some bs => (headerValueToStr bs).getD ("unknown".data)

/-- `proxy.rs` `handle_request`: the `RequestLog` built by `log_request`. -/
def mkLog (env : Env) (m path host : Str) (status : Nat) (upstream : Str) : RequestLog :=
  ⟨env.now, m, path, host, status, env.elapsed_ms, upstream⟩

/-- `proxy.rs` `ProxyServer::proxy_request`: build the target URI; on a
parse failure respond 502 (`Invalid upstream URI`) and count an error; on
a transport failure respond 502 (`Upstream error`) and count an error;
otherwise pass the upstream response status through. -/
def proxy_request (env : Env) (route : Route) (upstream_url : Str)
    (path : Str) (query : Option Str) (st : SharedState) : SharedState × Nat :=
  if env.parseOk (targetUri upstream_url route path query) then
    match env.fetch with
    | some status => (st, status)
    | none => (increment_errors st, 502)
  else
    (increment_errors st, 502)

/-- `proxy.rs` `ProxyServer::handle_request`: count the request, mark it
active, extract the host, route, select an upstream, forward (or answer
404 / 503, counting an error and logging upstream `"none"`), log exactly
one entry, then mark the request no longer active. -/
def handle_request (routes : List Route) (env : Env) (m : Str)
    (hostHeader : Option (List Nat)) (path : Str) (query : Option Str)
    (st0 : SharedState) : SharedState × Nat :=
  let st1 := increment_active_requests (increment_total_requests st0)
  let host := extractHost hostHeader
  let result :=
    match find_route routes host path with
    | some route =>
        match select_upstream route.upstreams with
        | some upstream_url =>
            let r := proxy_request env route upstream_url path query st1
            (add_request_log r.1 (mkLog env m path host r.2 upstream_url), r.2)
        | none =>
            (add_request_log (increment_errors st1)
              (mkLog env m path host 503 ("none".data)), 503)
    | none =>
        (add_request_log (increment_errors st1)
          (mkLog env m path host 404 ("none".data)), 404)
  (decrement_active_requests result.1, result.2)

/-- `control.rs`: the observable part of a control-API response: status
code, optional `Content-Type` header, body. -/
structure ControlResponse where
  status : Nat
  content_type : Option Str
  body : Str
deriving DecidableEq

/-- The `Content-Type` value set by the health and metrics responses. -/
def jsonContentType : Str := "application/json".data

/-- Decimal rendering of a counter, as Rust's `Display` for `u64`. -/
def natToStr (n : Nat) : Str := (Nat.repr n).data

/-- `control.rs` `ControlServer::health_response`. -/
def health_response : ControlResponse :=
  ⟨200, some jsonContentType, "\x7b\"status\":\"ok\"\x7d".data⟩

/-- `control.rs` `ControlServer::metrics_response`: formats the three
counters; the `upstreams` array is the literal `[]`. -/
def metrics_response (st : SharedState) : ControlResponse :=
  ⟨200, some jsonContentType,
    "\x7b\"total_requests\":".data ++ natToStr st.metrics.total_requests ++
    ",\"active_requests\":".data ++ natToStr st.metrics.active_requests ++
    ",\"total_errors\":".data ++ natToStr st.metrics.total_errors ++
    ",\"upstreams\":[]\x7d".data⟩

/-- `control.rs` `ControlServer::not_found_response`. -/
def not_found_response : ControlResponse :=
  ⟨404, none, "Not Found".data⟩

/-- `control.rs` `ControlServer::handle_request`: dispatch on
`(method, path)`: `GET /health`, `GET /metrics`, otherwise 404. -/
def control_handle_request (st : SharedState) (m path : Str) : ControlResponse :=
  if m = "GET".data ∧ path = "/health".data then health_response
  else if m = "GET".data ∧ path = "/metrics".data then metrics_response st
  else not_found_response

/-! ### Basic facts about the state operations -/

@[simp]
lemma add_request_log_metrics (st : SharedState) (log : RequestLog) :
    (add_request_log st log).metrics = st.metrics := rfl

@[simp]
lemma increment_total_requests_request_logs (st : SharedState) :
    (increment_total_requests st).request_logs = st.request_logs := rfl

@[simp]
lemma increment_active_requests_request_logs (st : SharedState) :
    (increment_active_requests st).request_logs = st.request_logs := rfl

@[simp]
lemma decrement_active_requests_request_logs (st : SharedState) :
    (decrement_active_requests st).request_logs = st.request_logs := rfl

@[simp]
lemma increment_errors_request_logs (st : SharedState) :
    (increment_errors st).request_logs = st.request_logs := rfl

@[simp]
lemma increment_total_requests_metrics (st : SharedState) :
    (increment_total_requests st).metrics
      = { st.metrics with total_requests := st.metrics.total_requests + 1 } := rfl

@[simp]
lemma increment_active_requests_metrics (st : SharedState) :
    (increment_active_requests st).metrics
      = { st.metrics with active_requests := st.metrics.active_requests + 1 } := rfl

@[simp]
lemma increment_errors_metrics (st : SharedState) :
    (increment_errors st).metrics
      = { st.metrics with total_errors := st.metrics.total_errors + 1 } := rfl

@[simp]
lemma decrement_active_requests_metrics (st : SharedState) :
    (decrement_active_requests st).metrics
      = { st.metrics with active_requests :=
            if 0 < st.metrics.active_requests then st.metrics.active_requests - 1
            else st.metrics.active_requests } := rfl

lemma add_request_log_length (st : SharedState) (log : RequestLog)
    (h : st.request_logs.length ≤ 1000) :
    (add_request_log st log).request_logs.length
      = min (st.request_logs.length + 1) 1000 := by
  unfold add_request_log
  by_cases hc : 1000 < (st.request_logs ++ [log]).length
  · rw [if_pos hc]
    simp only [List.length_drop, List.length_append, List.length_cons,
      List.length_nil] at hc ⊢
    omega
  · rw [if_neg hc]
    simp only [List.length_append, List.length_cons, List.length_nil] at hc ⊢
    omega

lemma add_request_log_getLast (st : SharedState) (log : RequestLog) :
    (add_request_log st log).request_logs.getLast? = some log := by
  unfold add_request_log
  by_cases hc : 1000 < (st.request_logs ++ [log]).length
  · have hle : 1 ≤ st.request_logs.length := by
      simp only [List.length_append, List.length_cons, List.length_nil] at hc
      omega
    rw [if_pos hc, List.drop_append_of_le_length hle, List.getLast?_concat]
  · rw [if_neg hc, List.getLast?_concat]

/-! ### Branch lemmas for the request handler -/

lemma proxy_request_err (env : Env) (route : Route) (u path : Str) (q : Option Str)
    (st : SharedState)
    (h : env.parseOk (targetUri u route path q) = false ∨ env.fetch = none) :
    proxy_request env route u path q st = (increment_errors st, 502) := by
  rcases h with h | h
  · simp [proxy_request, h]
  · cases hp : env.parseOk (targetUri u route path q) <;> simp [proxy_request, hp, h]

lemma proxy_request_ok (env : Env) (route : Route) (u path : Str) (q : Option Str)
    (st : SharedState) (s : Nat)
    (hp : env.parseOk (targetUri u route path q) = true) (hf : env.fetch = some s) :
    proxy_request env route u path q st = (st, s) := by
  simp [proxy_request, hp, hf]

lemma handle_request_no_route (routes : List Route) (env : Env) (m : Str)
    (hh : Option (List Nat)) (path : Str) (q : Option Str) (st0 : SharedState)
    (hfr : find_route routes (extractHost hh) path = none) :
    handle_request routes env m hh path q st0 =
      (decrement_active_requests (add_request_log
          (increment_errors (increment_active_requests (increment_total_requests st0)))
          (mkLog env m path (extractHost hh) 404 ("none".data))), 404) := by
  simp [handle_request, hfr]

lemma handle_request_no_upstream (routes : List Route) (env : Env) (m : Str)
    (hh : Option (List Nat)) (path : Str) (q : Option Str) (st0 : SharedState)
    (route : Route)
    (hfr : find_route routes (extractHost hh) path = some route)
    (hsel : select_upstream route.upstreams = none) :
    handle_request routes env m hh path q st0 =
      (decrement_active_requests (add_request_log
          (increment_errors (increment_active_requests (increment_total_requests st0)))
          (mkLog env m path (extractHost hh) 503 ("none".data))), 503) := by
  simp [handle_request, hfr, hsel]

lemma handle_request_fwd (routes : List Route) (env : Env) (m : Str)
    (hh : Option (List Nat)) (path : Str) (q : Option Str) (st0 : SharedState)
    (route : Route) (u : Str)
    (hfr : find_route routes (extractHost hh) path = some route)
    (hsel : select_upstream route.upstreams = some u) :
    handle_request routes env m hh path q st0 =
      (decrement_active_requests (add_request_log
          (proxy_request env route u path q
            (increment_active_requests (increment_total_requests st0))).1
          (mkLog env m path (extractHost hh)
            (proxy_request env route u path q
              (increment_active_requests (increment_total_requests st0))).2 u)),
       (proxy_request env route u path q
          (increment_active_requests (increment_total_requests st0))).2) := by
  simp [handle_request, hfr, hsel]

/-! ## C1: wildcard and exact host matching -/

/-- C1 (amended): for a wildcard pattern `*.suffix`, `matches_host` reports a
match iff the host ends with `suffix`, **or** `suffix` has more than one
character and the host equals `suffix` with its first character removed (an
extra case the code's `host == &suffix[1..]` comparison admits, since the
leading dot was already stripped from `suffix`); for a non-wildcard pattern
the match is exact string equality. -/
theorem C1_matches_host_characterization (suffix h p : Str)
    (hp : ¬ ['*', '.'] <+: p) :
    (matches_host ['*' :: '.' :: suffix] h = true ↔
        suffix <:+ h ∨ (1 < suffix.length ∧ h = suffix.drop 1)) ∧
    (matches_host [p] h = true ↔ p = h) := by
  have hdrop : ('*' :: '.' :: suffix).drop 2 = suffix := rfl
  constructor
  · have hw : ['*', '.'] <+: ('*' :: '.' :: suffix) := ⟨suffix, rfl⟩
    simp [matches_host, matchesPattern, hw, hdrop]
  · simp [matches_host, matchesPattern, hp]

/-- C1 witness: the characterization applied to pattern `*.example.com`
(suffix `example.com`), host `app.example.com`, and the non-wildcard
pattern `api.local`. -/
theorem C1_matches_host_characterization_witness :
    (matches_host ["*.example.com".data] ("app.example.com".data) = true ↔
        ("example.com".data) <:+ ("app.example.com".data) ∨
          (1 < ("example.com".data).length ∧
            ("app.example.com".data) = ("example.com".data).drop 1)) ∧
    (matches_host ["api.local".data] ("app.example.com".data) = true ↔
        ("api.local".data) = ("app.example.com".data)) :=
  C1_matches_host_characterization ("example.com".data) ("app.example.com".data)
    ("api.local".data) (by decide)

/-- C1 counterexample: for pattern `*.example.com` the code reports a match
on host `xample.com`, although `xample.com` neither ends with the suffix
`example.com` nor equals it — so the claimed rule
`match(h) iff h.ends_with(suffix)` does not hold of the code. -/
theorem C1_counterexample :
    matches_host ["*.example.com".data] ("xample.com".data) = true ∧
    ¬ (("example.com".data) <:+ ("xample.com".data)) ∧
    ("xample.com".data) ≠ ("example.com".data) := by
  refine ⟨by decide, by decide, by decide⟩

/-! ## C3: first-match route lookup -/

/-- A sample upstream for concrete route tables. -/
def upstreamU1 : Upstream := ⟨"http://u1".data, 1, 3, 15⟩

/-- A general route: host `a.com`, path prefix `/api`. -/
def routeGeneral : Route :=
  ⟨"general".data, ["a.com".data], "/api".data, false, none, [upstreamU1]⟩

/-- A more specific route listed after `routeGeneral`: same host, path
prefix `/api/users`. -/
def routeSpecific : Route :=
  ⟨"specific".data, ["a.com".data], "/api/users".data, false, none, [upstreamU1]⟩

/-- C3: `find_route` returns `some r` exactly when `r` occurs at some
position `i` of the route table, `r` matches (host pattern match together
with literal path-prefix match, `routeMatches`), and every route at an
earlier position fails to match; it returns `none` exactly when no route
in the table matches. -/
theorem C3_find_route_first_match (routes : List Route) (host path : Str) :
    (∀ r : Route,
        find_route routes host path = some r ↔
          ∃ i, routes.get? i = some r ∧ routeMatches r host path = true ∧
            ∀ j, j < i → ∀ r', routes.get? j = some r' →
              routeMatches r' host path = false) ∧
    (find_route routes host path = none ↔
        ∀ r ∈ routes, routeMatches r host path = false) := by
  induction routes with
  | nil =>
      refine ⟨fun r => ⟨fun hr => Option.noConfusion hr, ?_⟩, by simp [find_route]⟩
      rintro ⟨i, hi, -, -⟩
      cases i <;> cases hi
  | cons a rs ih =>
      cases hma : routeMatches a host path with
      | true =>
          have hfr : find_route (a :: rs) host path = some a := by
            simp [find_route, hma]
          refine ⟨fun r => ⟨?_, ?_⟩, ?_⟩
          · intro hr
            rw [hfr] at hr
            cases hr
            exact ⟨0, rfl, hma, fun j hj _ _ => absurd hj (Nat.not_lt_zero j)⟩
          · rintro ⟨i, hi, hm, hfirst⟩
            cases i with
            | zero => cases hi; exact hfr
            | succ j =>
                have := hfirst 0 (Nat.succ_pos j) a rfl
                rw [hma] at this
                cases this
          · rw [hfr]
            simp only [List.mem_cons]
            constructor
            · intro h; cases h
            · intro h
              have := h a (Or.inl rfl)
              rw [hma] at this
              cases this
      | false =>
          have hstep : find_route (a :: rs) host path = find_route rs host path := by
            simp [find_route, hma]
          refine ⟨fun r => ⟨?_, ?_⟩, ?_⟩
          · intro hr
            rw [hstep] at hr
            obtain ⟨i, hi, hm, hfirst⟩ := (ih.1 r).mp hr
            refine ⟨i + 1, hi, hm, ?_⟩
            intro j hj r' hr'
            cases j with
            | zero =>
                cases hr'
                exact hma
            | succ k => exact hfirst k (Nat.lt_of_succ_lt_succ hj) r' hr'
          · rintro ⟨i, hi, hm, hfirst⟩
            cases i with
            | zero =>
                cases hi
                rw [hma] at hm
                cases hm
            | succ k =>
                rw [hstep]
                refine (ih.1 r).mpr ⟨k, hi, hm, ?_⟩
                intro j hj r' hr'
                exact hfirst (j + 1) (Nat.succ_lt_succ hj) r' hr'
          · rw [hstep, ih.2]
            constructor
            · intro h r hr
              rcases List.mem_cons.mp hr with h0 | h1
              · rw [h0]; exact hma
              · exact h r h1
            · intro h r hr
              exact h r (List.mem_cons_of_mem a hr)

/-- C3 witness: with two overlapping routes that both match
(host `a.com`, request path `/api/users/7`, prefixes `/api` and
`/api/users`), the earlier, more general route wins; and the path-prefix
test is a literal string-prefix test, so prefix `/api` also matches path
`/apiv2`. -/
theorem C3_find_route_first_match_witness :
    find_route [routeGeneral, routeSpecific] ("a.com".data) ("/api/users/7".data)
      = some routeGeneral ∧
    find_route [routeGeneral] ("a.com".data) ("/apiv2".data) = some routeGeneral :=
  ⟨((C3_find_route_first_match [routeGeneral, routeSpecific] ("a.com".data)
        ("/api/users/7".data)).1 routeGeneral).mpr
      ⟨0, rfl, by decide, fun j hj _ _ => absurd hj (Nat.not_lt_zero j)⟩,
   ((C3_find_route_first_match [routeGeneral] ("a.com".data)
        ("/apiv2".data)).1 routeGeneral).mpr
      ⟨0, rfl, by decide, fun j hj _ _ => absurd hj (Nat.not_lt_zero j)⟩⟩

/-! ## C4: path rewriting and target-URI construction -/

/-- The route of the C4 scenario:
`{hosts:["a.com"], prefix:"/api", strip_prefix:true, rewrite:"/v2",
upstreams:["http://u1"]}`. -/
def routeApiV2 : Route :=
  ⟨"api".data, ["a.com".data], "/api".data, true, some ("/v2".data), [upstreamU1]⟩

/-- C4: the forwarded target URI is the upstream base URL, then the
rewritten path, then `?` and the original query string; with the strip
flag set, the rewritten path is the configured rewrite prefix (empty when
none is configured) followed by the request path with the route's matched
path prefix removed — or followed by the unchanged path when the prefix is
absent; with the strip flag clear the path is passed through unchanged. -/
theorem C4_target_uri_construction (route : Route) (url path q : Str) :
    targetUri url route path (some q)
      = url ++ rewrittenPath route path ++ '?' :: q ∧
    (route.strip_pre = true → route.path_pre <+: path →
        rewrittenPath route path
          = route.rewrite_pre.getD [] ++ path.drop route.path_pre.length) ∧
    (route.strip_pre = true → ¬ route.path_pre <+: path →
        rewrittenPath route path = route.rewrite_pre.getD [] ++ path) ∧
    (route.strip_pre = false → rewrittenPath route path = path) := by
  refine ⟨rfl, ?_, ?_, ?_⟩
  · intro hs hp
    cases hrw : route.rewrite_pre <;>
      simp [rewrittenPath, hs, hrw, stripPre, hp]
  · intro hs hp
    cases hrw : route.rewrite_pre <;>
      simp [rewrittenPath, hs, hrw, stripPre, hp]
  · intro hs
    simp [rewrittenPath, hs]

/-- C4 witness: the spec's scenario — request `GET a.com/api/users?x=1`
against `routeApiV2` with upstream `http://u1` is forwarded to
`http://u1/v2/users?x=1`. -/
theorem C4_target_uri_construction_witness :
    targetUri ("http://u1".data) routeApiV2 ("/api/users".data) (some ("x=1".data))
      = ("http://u1/v2/users?x=1".data) := by
  have h := C4_target_uri_construction routeApiV2 ("http://u1".data)
    ("/api/users".data) ("x=1".data)
  rw [h.1, h.2.1 rfl (by decide)]
  decide

/-! ## C2: per-request accounting -/

/-- An environment whose upstream is unreachable: every computed URI
parses, but the outbound request fails with a transport error. -/
def envDown : Env := ⟨fun _ => true, none, 0, 7⟩

/-- C2: every handled request bumps `total_requests` by exactly one,
leaves `active_requests` at its pre-request value, and appends exactly one
log record (the store length becomes `min (old + 1) 1000`); `total_errors`
is bumped by exactly one on each error outcome — no route, no upstream,
URI-parse failure or upstream transport failure — and is untouched when
the upstream answers.  The statement holds for every starting state, so
repeated identical requests each independently produce the same deltas. -/
theorem C2_request_accounting (routes : List Route) (env : Env) (m : Str)
    (hh : Option (List Nat)) (path : Str) (q : Option Str) (st0 : SharedState)
    (hlen : st0.request_logs.length ≤ 1000) :
    (handle_request routes env m hh path q st0).1.metrics.total_requests
        = st0.metrics.total_requests + 1 ∧
    (handle_request routes env m hh path q st0).1.metrics.active_requests
        = st0.metrics.active_requests ∧
    (handle_request routes env m hh path q st0).1.request_logs.length
        = min (st0.request_logs.length + 1) 1000 ∧
    (find_route routes (extractHost hh) path = none →
        (handle_request routes env m hh path q st0).1.metrics.total_errors
          = st0.metrics.total_errors + 1) ∧
    (∀ route, find_route routes (extractHost hh) path = some route →
        select_upstream route.upstreams = none →
        (handle_request routes env m hh path q st0).1.metrics.total_errors
          = st0.metrics.total_errors + 1) ∧
    (∀ route u, find_route routes (extractHost hh) path = some route →
        select_upstream route.upstreams = some u →
        env.parseOk (targetUri u route path q) = false ∨ env.fetch = none →
        (handle_request routes env m hh path q st0).1.metrics.total_errors
          = st0.metrics.total_errors + 1) ∧
    (∀ route u s, find_route routes (extractHost hh) path = some route →
        select_upstream route.upstreams = some u →
        env.parseOk (targetUri u route path q) = true → env.fetch = some s →
        (handle_request routes env m hh path q st0).1.metrics.total_errors
          = st0.metrics.total_errors) := by
  cases hfr : find_route routes (extractHost hh) path with
  | none =>
      rw [handle_request_no_route routes env m hh path q st0 hfr]
      refine ⟨by simp, by simp, ?_, fun _ => by simp, ?_, ?_, ?_⟩
      · simp [add_request_log_length, hlen]
      · intro route hr _
        exact Option.noConfusion hr
      · intro route u hr _ _
        exact Option.noConfusion hr
      · intro route u s hr _ _ _
        exact Option.noConfusion hr
  | some route =>
      cases hsel : select_upstream route.upstreams with
      | none =>
          rw [handle_request_no_upstream routes env m hh path q st0 route hfr hsel]
          refine ⟨by simp, by simp, ?_, ?_, ?_, ?_, ?_⟩
          · simp [add_request_log_length, hlen]
          · intro h
            exact Option.noConfusion h
          · intro route' _ _
            simp
          · intro route' u hr hs _
            obtain rfl := Option.some.inj hr
            rw [hsel] at hs; exact Option.noConfusion hs
          · intro route' u s hr hs _ _
            obtain rfl := Option.some.inj hr
            rw [hsel] at hs; exact Option.noConfusion hs
      | some u =>
          rw [handle_request_fwd routes env m hh path q st0 route u hfr hsel]
          by_cases herr : env.parseOk (targetUri u route path q) = false ∨ env.fetch = none
          · rw [proxy_request_err env route u path q _ herr]
            refine ⟨by simp, by simp, ?_, ?_, ?_, ?_, ?_⟩
            · simp [add_request_log_length, hlen]
            · intro h
              exact Option.noConfusion h
            · intro route' hr hs
              obtain rfl := Option.some.inj hr
              rw [hsel] at hs; exact Option.noConfusion hs
            · intro route' u' _ _ _
              simp
            · intro route' u' s hr hs hp hf
              obtain rfl := Option.some.inj hr
              rw [hsel] at hs
              obtain rfl := Option.some.inj hs
              rcases herr with h | h
              · rw [hp] at h; exact Bool.noConfusion h
              · rw [hf] at h; exact Option.noConfusion h
          · push_neg at herr
            obtain ⟨hp, hf⟩ := herr
            have hp' : env.parseOk (targetUri u route path q) = true := by
              cases hb : env.parseOk (targetUri u route path q) with
              | false => exact absurd hb hp
              | true => rfl
            cases hfe : env.fetch with
            | none => exact absurd hfe hf
            | some s =>
                rw [proxy_request_ok env route u path q _ s hp' hfe]
                refine ⟨by simp, by simp, ?_, ?_, ?_, ?_, ?_⟩
                · simp [add_request_log_length, hlen]
                · intro h
                  exact Option.noConfusion h
                · intro route' hr hs
                  obtain rfl := Option.some.inj hr
                  rw [hsel] at hs; exact Option.noConfusion hs
                · intro route' u' hr hs hcond
                  obtain rfl := Option.some.inj hr
                  rw [hsel] at hs
                  obtain rfl := Option.some.inj hs
                  rcases hcond with h | h
                  · rw [hp'] at h; exact Bool.noConfusion h
                  · exact Option.noConfusion h
                · intro route' u' s' _ _ _ _
                  simp

/-- C2 witness: a request with no matching route (empty route table)
against the empty starting state: `total_requests` becomes 1,
`active_requests` returns to 0, one log record is stored, and the no-route
outcome bumps `total_errors` to 1. -/
theorem C2_request_accounting_witness :
    (handle_request [] envDown ("GET".data) none ("/x".data) none
        SharedState.new).1.metrics.total_requests
      = SharedState.new.metrics.total_requests + 1 ∧
    (handle_request [] envDown ("GET".data) none ("/x".data) none
        SharedState.new).1.metrics.active_requests
      = SharedState.new.metrics.active_requests ∧
    (handle_request [] envDown ("GET".data) none ("/x".data) none
        SharedState.new).1.request_logs.length
      = min (SharedState.new.request_logs.length + 1) 1000 ∧
    (handle_request [] envDown ("GET".data) none ("/x".data) none
        SharedState.new).1.metrics.total_errors
      = SharedState.new.metrics.total_errors + 1 := by
  have h := C2_request_accounting [] envDown ("GET".data) none ("/x".data) none
    SharedState.new (by decide)
  exact ⟨h.1, h.2.1, h.2.2.1, h.2.2.2.1 rfl⟩

/-! ## C5: error-to-status mapping -/

/-- C5: the handler's error outcomes: with no matching route it answers
404; with a matching route whose upstream selector yields nothing it
answers 503; when the computed target URI fails to parse or the outbound
request fails it answers 502; each of the three outcomes bumps
`total_errors` by one and appends one log record, the 404 and 503 records
carrying the sentinel upstream `none` and the 502 record the selected
upstream. -/
theorem C5_error_status_mapping (routes : List Route) (env : Env) (m : Str)
    (hh : Option (List Nat)) (path : Str) (q : Option Str) (st0 : SharedState) :
    (find_route routes (extractHost hh) path = none →
        (handle_request routes env m hh path q st0).2 = 404 ∧
        (handle_request routes env m hh path q st0).1.request_logs.getLast?
          = some (mkLog env m path (extractHost hh) 404 ("none".data)) ∧
        (handle_request routes env m hh path q st0).1.metrics.total_errors
          = st0.metrics.total_errors + 1) ∧
    (∀ route, find_route routes (extractHost hh) path = some route →
        select_upstream route.upstreams = none →
        (handle_request routes env m hh path q st0).2 = 503 ∧
        (handle_request routes env m hh path q st0).1.request_logs.getLast?
          = some (mkLog env m path (extractHost hh) 503 ("none".data)) ∧
        (handle_request routes env m hh path q st0).1.metrics.total_errors
          = st0.metrics.total_errors + 1) ∧
    (∀ route u, find_route routes (extractHost hh) path = some route →
        select_upstream route.upstreams = some u →
        env.parseOk (targetUri u route path q) = false ∨ env.fetch = none →
        (handle_request routes env m hh path q st0).2 = 502 ∧
        (handle_request routes env m hh path q st0).1.request_logs.getLast?
          = some (mkLog env m path (extractHost hh) 502 u) ∧
        (handle_request routes env m hh path q st0).1.metrics.total_errors
          = st0.metrics.total_errors + 1) := by
  cases hfr : find_route routes (extractHost hh) path with
  | none =>
      rw [handle_request_no_route routes env m hh path q st0 hfr]
      refine ⟨fun _ => ⟨rfl, by simp [add_request_log_getLast], by simp⟩, ?_, ?_⟩
      · intro route hr _
        exact Option.noConfusion hr
      · intro route u hr _ _
        exact Option.noConfusion hr
  | some route =>
      cases hsel : select_upstream route.upstreams with
      | none =>
          rw [handle_request_no_upstream routes env m hh path q st0 route hfr hsel]
          refine ⟨fun h => Option.noConfusion h, ?_, ?_⟩
          · intro route' hr hs
            exact ⟨rfl, by simp [add_request_log_getLast], by simp⟩
          · intro route' u hr hs _
            obtain rfl := Option.some.inj hr
            rw [hsel] at hs; exact Option.noConfusion hs
      | some u =>
          rw [handle_request_fwd routes env m hh path q st0 route u hfr hsel]
          refine ⟨fun h => Option.noConfusion h, ?_, ?_⟩
          · intro route' hr hs
            obtain rfl := Option.some.inj hr
            rw [hsel] at hs; exact Option.noConfusion hs
          · intro route' u' hr hs hcond
            obtain rfl := Option.some.inj hr
            rw [hsel] at hs
            obtain rfl := Option.some.inj hs
            rw [proxy_request_err env route u path q _ hcond]
            exact ⟨rfl, by simp [add_request_log_getLast], by simp⟩

/-- C5 witness: against the empty route table a request yields 404 with
upstream `none` logged; against a matching route with an unreachable
upstream (transport error) it yields 502 with the upstream URL logged;
both count one error. -/
theorem C5_error_status_mapping_witness :
    ((handle_request [] envDown ("GET".data) none ("/y".data) none
        SharedState.new).2 = 404 ∧
      (handle_request [] envDown ("GET".data) none ("/y".data) none
          SharedState.new).1.request_logs.getLast?
        = some (mkLog envDown ("GET".data) ("/y".data) (extractHost none) 404
            ("none".data)) ∧
      (handle_request [] envDown ("GET".data) none ("/y".data) none
          SharedState.new).1.metrics.total_errors
        = SharedState.new.metrics.total_errors + 1) ∧
    ((handle_request [routeGeneral] envDown ("GET".data)
        (some [97, 46, 99, 111, 109]) ("/api/x".data) none SharedState.new).2 = 502 ∧
      (handle_request [routeGeneral] envDown ("GET".data)
          (some [97, 46, 99, 111, 109]) ("/api/x".data) none
          SharedState.new).1.request_logs.getLast?
        = some (mkLog envDown ("GET".data) ("/api/x".data)
            (extractHost (some [97, 46, 99, 111, 109])) 502 ("http://u1".data)) ∧
      (handle_request [routeGeneral] envDown ("GET".data)
          (some [97, 46, 99, 111, 109]) ("/api/x".data) none
          SharedState.new).1.metrics.total_errors
        = SharedState.new.metrics.total_errors + 1) :=
  ⟨(C5_error_status_mapping [] envDown ("GET".data) none ("/y".data) none
      SharedState.new).1 rfl,
   (C5_error_status_mapping [routeGeneral] envDown ("GET".data)
      (some [97, 46, 99, 111, 109]) ("/api/x".data) none SharedState.new).2.2
      routeGeneral ("http://u1".data) (by decide) rfl (Or.inr rfl)⟩

/-! ## C6: bounded FIFO log store -/

lemma foldl_add_request_log_overflow (ls : List RequestLog) (st : SharedState)
    (hle : st.request_logs.length ≤ 1000)
    (hsum : st.request_logs.length + ls.length = 1001) :
    (ls.foldl add_request_log st).request_logs = (st.request_logs ++ ls).drop 1 := by
  induction ls generalizing st with
  | nil =>
      exfalso
      simp only [List.length_nil] at hsum
      omega
  | cons l ls ih =>
      simp only [List.length_cons] at hsum
      rw [List.foldl_cons]
      by_cases hfull : st.request_logs.length = 1000
      · have hnil : ls = [] := List.length_eq_zero.mp (by omega)
        subst hnil
        rw [List.foldl_nil]
        unfold add_request_log
        rw [if_pos (by simp [hfull])]
      · have hlogs : (add_request_log st l).request_logs = st.request_logs ++ [l] := by
          unfold add_request_log
          rw [if_neg (by simp; omega)]
        have := ih (add_request_log st l)
          (by rw [hlogs]; simp; omega)
          (by rw [hlogs]; simp; omega)
        rw [this, hlogs, List.append_assoc, List.singleton_append]

/-- C6: the log store is bounded and FIFO: adding a record to a store
holding at most 1000 records keeps it at most 1000; and folding 1001
insertions into the fresh store leaves exactly the last 1000 records in
insertion order — the first-inserted record is the one evicted. -/
theorem C6_log_store_bound_fifo :
    (∀ st log, st.request_logs.length ≤ 1000 →
        (add_request_log st log).request_logs.length ≤ 1000) ∧
    (∀ ls : List RequestLog, ls.length = 1001 →
        (ls.foldl add_request_log SharedState.new).request_logs = ls.drop 1) := by
  constructor
  · intro st log h
    rw [add_request_log_length st log h]
    omega
  · intro ls h
    have := foldl_add_request_log_overflow ls SharedState.new (by simp [SharedState.new])
      (by simp [SharedState.new, h])
    simpa [SharedState.new] using this

/-- A sample log record. -/
def demoLog : RequestLog :=
  ⟨0, "GET".data, "/".data, "a.com".data, 200, 1, "http://u1".data⟩

/-- C6 witness: 1001 identical insertions into the fresh store leave the
1000 most recent records. -/
theorem C6_log_store_bound_fifo_witness :
    (List.replicate 1001 demoLog).length = 1001 ∧
    ((List.replicate 1001 demoLog).foldl add_request_log SharedState.new).request_logs
      = (List.replicate 1001 demoLog).drop 1 :=
  ⟨List.length_replicate 1001 demoLog,
   C6_log_store_bound_fifo.2 (List.replicate 1001 demoLog)
     (List.length_replicate 1001 demoLog)⟩

/-! ## C7: saturating active-request decrement -/

/-- C7: `decrement_active_requests` saturates at zero: a zero counter
stays zero, a positive counter decreases by exactly one, and a decrement
right after an increment restores the previous value — in the `Nat` model
the counter therefore can never underflow under any sequence of
increments and (guarded) decrements, including a decrement before any
increment. -/
theorem C7_decrement_saturating (st : SharedState) :
    (st.metrics.active_requests = 0 →
        (decrement_active_requests st).metrics.active_requests = 0) ∧
    (0 < st.metrics.active_requests →
        (decrement_active_requests st).metrics.active_requests
          = st.metrics.active_requests - 1) ∧
    (decrement_active_requests (increment_active_requests st)).metrics.active_requests
      = st.metrics.active_requests := by
  refine ⟨?_, ?_, by simp⟩
  · intro h
    simp [h]
  · intro h
    simp [h]

/-- C7 witness: a decrement applied to the fresh state (counter 0, i.e.
before any increment) leaves the counter at 0. -/
theorem C7_decrement_saturating_witness :
    (decrement_active_requests SharedState.new).metrics.active_requests = 0 :=
  (C7_decrement_saturating SharedState.new).1 rfl

/-! ## C8: upstream selection -/

/-- C8: `select_upstream` returns the URL of the first upstream of the
list and `none` for the empty list; it is a function of the upstreams'
URLs alone, so the weight, fail-threshold and cooldown fields never
influence its result. -/
theorem C8_select_upstream_first :
    select_upstream [] = none ∧
    (∀ u us, select_upstream (u :: us) = some u.url) ∧
    (∀ us us', us.map Upstream.url = us'.map Upstream.url →
        select_upstream us = select_upstream us') := by
  have key : ∀ l : List Upstream, select_upstream l = (l.map Upstream.url).head? := by
    intro l; cases l <;> rfl
  refine ⟨rfl, fun u us => rfl, ?_⟩
  intro us us' h
  rw [key, key, h]

/-- An upstream with the same URL as `upstreamU1` but different weight,
fail-threshold and cooldown. -/
def upstreamHeavy : Upstream := ⟨"http://u1".data, 7, 9, 2⟩

/-- C8 witness: two single-upstream lists agreeing on URLs but differing
in every other field select the same upstream. -/
theorem C8_select_upstream_first_witness :
    select_upstream [upstreamU1] = select_upstream [upstreamHeavy] :=
  C8_select_upstream_first.2.2 [upstreamU1] [upstreamHeavy] (by decide)

/-! ## C9: control-surface responses -/

/-- C9: `GET /health` answers 200 with JSON content type and body
`{"status":"ok"}`; `GET /metrics` answers 200 with JSON content type and
a body rendering exactly the three counters with an always-empty
`upstreams` array — the response is independent of the log store and of
the recorded upstream statuses; every other method/path combination
answers 404 with plain body `Not Found`. -/
theorem C9_control_surface (st st' : SharedState) (m p : Str)
    (hm : st.metrics.total_requests = st'.metrics.total_requests)
    (ha : st.metrics.active_requests = st'.metrics.active_requests)
    (he : st.metrics.total_errors = st'.metrics.total_errors)
    (hother : ¬ ((m = "GET".data ∧ p = "/health".data) ∨
        (m = "GET".data ∧ p = "/metrics".data))) :
    control_handle_request st ("GET".data) ("/health".data)
      = ⟨200, some jsonContentType, ("\x7b\"status\":\"ok\"\x7d".data)⟩ ∧
    control_handle_request st ("GET".data) ("/metrics".data)
      = ⟨200, some jsonContentType,
          ("\x7b\"total_requests\":".data) ++ natToStr st.metrics.total_requests ++
          (",\"active_requests\":".data) ++ natToStr st.metrics.active_requests ++
          (",\"total_errors\":".data) ++ natToStr st.metrics.total_errors ++
          (",\"upstreams\":[]\x7d".data)⟩ ∧
    control_handle_request st ("GET".data) ("/metrics".data)
      = control_handle_request st' ("GET".data) ("/metrics".data) ∧
    control_handle_request st m p = ⟨404, none, ("Not Found".data)⟩ := by
  have h1 : ¬ (m = "GET".data ∧ p = "/health".data) := fun h => hother (Or.inl h)
  have h2 : ¬ (m = "GET".data ∧ p = "/metrics".data) := fun h => hother (Or.inr h)
  have hmet : ∀ s : SharedState,
      control_handle_request s ("GET".data) ("/metrics".data) = metrics_response s := by
    intro s
    rfl
  refine ⟨rfl, rfl, ?_, ?_⟩
  · rw [hmet st, hmet st']
    simp only [metrics_response, hm, ha, he]
  · simp [control_handle_request, h1, h2, not_found_response]

/-- A state with counters (5, 1, 2), one log record and one recorded
upstream status. -/
def stateA : SharedState :=
  ⟨[demoLog], ⟨5, 1, 2, [⟨"http://u1".data, true, 0⟩]⟩⟩

/-- A state with the same counters as `stateA` but empty log store and no
recorded upstream statuses. -/
def stateB : SharedState := ⟨[], ⟨5, 1, 2, []⟩⟩

/-- C9 witness: states agreeing on the counters produce identical metrics
responses regardless of store contents, and `POST /health` answers 404
`Not Found`. -/
theorem C9_control_surface_witness :
    control_handle_request stateA ("GET".data) ("/metrics".data)
      = control_handle_request stateB ("GET".data) ("/metrics".data) ∧
    control_handle_request stateA ("POST".data) ("/health".data)
      = ⟨404, none, ("Not Found".data)⟩ :=
  ⟨(C9_control_surface stateA stateB ("POST".data) ("/health".data)
      rfl rfl rfl (by decide)).2.2.1,
   (C9_control_surface stateA stateB ("POST".data) ("/health".data)
      rfl rfl rfl (by decide)).2.2.2⟩

/-! ## C10: missing or invalid Host header -/

/-- C10: when the request carries no Host header, or its value fails the
visible-ASCII conversion, routing and logging use the host string
`unknown`: such a request matches any pattern list containing the exact
string `unknown`, and the log record appended by the handler carries host
`unknown`. -/
theorem C10_unknown_host (hh : Option (List Nat))
    (hbad : hh = none ∨ ∃ bs, hh = some bs ∧ headerValueToStr bs = none) :
    extractHost hh = ("unknown".data) ∧
    (∀ patterns, ("unknown".data) ∈ patterns →
        matches_host patterns (extractHost hh) = true) ∧
    (∀ routes env m path q st0, ∃ e : RequestLog,
        (handle_request routes env m hh path q st0).1.request_logs.getLast?
          = some e ∧
        e.host = ("unknown".data)) := by
  have hu : extractHost hh = ("unknown".data) := by
    rcases hbad with h | ⟨bs, h, hb⟩
    · rw [h]; rfl
    · rw [h]
      simp [extractHost, hb]
  refine ⟨hu, ?_, ?_⟩
  · intro patterns hmem
    rw [hu]
    refine List.any_eq_true.mpr ⟨_, hmem, ?_⟩
    decide
  · intro routes env m path q st0
    cases hfr : find_route routes (extractHost hh) path with
    | none =>
        rw [handle_request_no_route routes env m hh path q st0 hfr]
        exact ⟨mkLog env m path (extractHost hh) 404 ("none".data),
          by simp [add_request_log_getLast], hu⟩
    | some route =>
        cases hsel : select_upstream route.upstreams with
        | none =>
            rw [handle_request_no_upstream routes env m hh path q st0 route hfr hsel]
            exact ⟨mkLog env m path (extractHost hh) 503 ("none".data),
              by simp [add_request_log_getLast], hu⟩
        | some u =>
            rw [handle_request_fwd routes env m hh path q st0 route u hfr hsel]
            exact ⟨mkLog env m path (extractHost hh)
                (proxy_request env route u path q
                  (increment_active_requests (increment_total_requests st0))).2 u,
              by simp [add_request_log_getLast], hu⟩

/-- C10 witness: a header whose value contains byte 200 (not visible
ASCII) and an absent header both yield host `unknown`. -/
theorem C10_unknown_host_witness :
    extractHost (some [200]) = ("unknown".data) ∧
    extractHost none = ("unknown".data) :=
  ⟨(C10_unknown_host (some [200]) (Or.inr ⟨[200], rfl, by decide⟩)).1,
   (C10_unknown_host none (Or.inl rfl)).1⟩

end RProxy
